import Mathlib

/-!
Shallow embedding of the data-normalization and local-fallback layer of the
Social-Media-Recommendation-System repository, from
`src/app/src/utils/dataGenerator.js` and the orchestrator in the App component.

Conventions of the embedding:
* JS numbers are exact rationals (`ℚ`); integer counters are `ℕ`.
* `x.toFixed(k)` stores a decimal string; we model the stored value by the
  rational it parses back to: `round (x * 10^k) / 10^k` (ECMA `toFixed`
  rounds to nearest and breaks ties towards the larger value, which is
  exactly Mathlib's `round` = `⌊x + 1/2⌋`; `Math.round` has the same rule).
* `Math.random()` draws are modelled by an arbitrary stream of rationals; the
  range hypothesis `0 ≤ draw < 1` is stated where a theorem needs it.  Each
  synthetic user consumes its own stream (the JS code consumes one global
  stream sequentially; since every theorem quantifies over all outcomes the
  per-user indexing is equivalent).
* A JS field that can be `undefined`/missing is modelled by a sentinel the
  code itself treats as falsy: `""` for strings, `0`-tests via `jsOrQ` for
  the `x || d` defaulting on numbers.
-/

namespace SocialRec

attribute [local semireducible] Rat.mul Rat.add Rat.inv Rat.sub

/-- JS `x.toFixed(1)` read back as a rational. -/
def toFixed1 (q : ℚ) : ℚ := (round (q * 10) : ℤ) / 10

/-- JS `x.toFixed(2)` read back as a rational. -/
def toFixed2 (q : ℚ) : ℚ := (round (q * 100) : ℤ) / 100

/-- JS `x.toFixed(3)` read back as a rational. -/
def toFixed3 (q : ℚ) : ℚ := (round (q * 1000) : ℤ) / 1000

/-- JS `x || d` on a number: `0` (and missing, modelled as `0`) falls back. -/
def jsOrQ (x d : ℚ) : ℚ := if x = 0 then d else x

/-- One row of the segment table of dataGenerator.js (lines 5-14). -/
structure Segment where
  id : ℕ
  name : String
  color : String
  minFollowers : ℕ
  minEngagement : ℕ
deriving DecidableEq

/-- The segment table, in declared order (dataGenerator.js lines 5-14). -/
def segments : List Segment :=
  [ ⟨0, "Micro-Influencers", "#8b5cf6", 10000, 5⟩,
    ⟨1, "Highly Engaged", "#3b82f6", 5000, 4⟩,
    ⟨2, "Engaged Creators", "#3b82f6", 5000, 4⟩,
    ⟨3, "Growing Accounts", "#10b981", 2000, 3⟩,
    ⟨4, "Active Community", "#f59e0b", 500, 2⟩,
    ⟨5, "Content Creators", "#ec4899", 1000, 3⟩,
    ⟨6, "Casual Users", "#6b7280", 0, 0⟩,
    ⟨7, "Newbies", "#6b7280", 0, 0⟩ ]

/-- Interest vocabulary (dataGenerator.js line 16). -/
def interestsCatalog : List String :=
  ["technology", "fashion", "travel", "food", "fitness", "gaming",
   "music", "art", "sports", "photography", "business", "education"]

/-- City vocabulary (dataGenerator.js line 17). -/
def citiesCatalog : List String :=
  ["New York", "Los Angeles", "London", "Mumbai", "Tokyo", "Paris",
   "Berlin", "Sydney", "Toronto", "Dubai", "Singapore"]

/-- Gender vocabulary (dataGenerator.js line 18). -/
def gendersCatalog : List String := ["Male", "Female", "Non-binary"]

/-- The canonical user record produced by both data paths (§3 of the spec).
`segment`, `segmentColor` empty and `segmentId` `none` model the fields
being absent (JS `undefined`, falsy) before clustering. -/
structure User where
  userId : String
  username : String
  age : ℚ
  gender : String
  city : String
  interests : List String
  followers : ℕ
  following : ℕ
  posts : ℕ
  likes : ℕ
  comments : ℕ
  shares : ℕ
  engagementRate : ℚ
  influenceScore : ℚ
  segment : String
  segmentColor : String
  segmentId : Option ℕ
deriving DecidableEq

/-- `String(n).padStart(4, '0')` on a decimal rendering. -/
def padStart4 (s : String) : String :=
  if 4 ≤ s.length then s
  else String.mk (List.replicate (4 - s.length) '0') ++ s

/-- The interest-selection loop of generateUserData (lines 51-56): `m`
iterations, draw `j` picks a vocabulary entry and appends it unless already
chosen.  Duplicate draws are skipped without redrawing. -/
def pickInterests (d : ℕ → ℚ) (m : ℕ) : List String :=
  (List.range m).foldl
    (fun acc j =>
      let interest := interestsCatalog.getD (⌊d (1 + j) * 12⌋).toNat ""
      if interest ∈ acc then acc else acc ++ [interest])
    []

/-- One synthetic user of generateUserData (lines 47-78), built from draw
stream `d` (in the draw order of the source: interest count, interest picks,
followers, following, posts, likes factor, age, gender, city, influence).
Note the stored `engagementRate` uses the pre-floor `likes` value while the
stored `likes`/`comments`/`shares` counters are floored. -/
def generateUser (d : ℕ → ℚ) (i : ℕ) : User :=
  let numInterests : ℕ := (⌊d 0 * 4⌋ + 2).toNat
  let userInterests := pickInterests d numInterests
  let k := 1 + numInterests
  let followers : ℕ := (⌊d k * 50000⌋ + 100).toNat
  let following : ℕ := (⌊d (k + 1) * 2000⌋ + 50).toNat
  let posts : ℕ := (⌊d (k + 2) * 500⌋ + 10).toNat
  let likes : ℚ := (followers : ℚ) * (5/100 + d (k + 3) * (1/10))
  { userId := "U" ++ padStart4 (toString (i + 1))
    username := "user_" ++ toString (i + 1)
    age := ((⌊d (k + 4) * 40⌋ + 18 : ℤ) : ℚ)
    gender := gendersCatalog.getD (⌊d (k + 5) * 3⌋).toNat ""
    city := citiesCatalog.getD (⌊d (k + 6) * 11⌋).toNat ""
    interests := userInterests
    followers := followers
    following := following
    posts := posts
    likes := (⌊likes⌋).toNat
    comments := (⌊likes * (15/100)⌋).toNat
    shares := (⌊likes * (5/100)⌋).toNat
    engagementRate :=
      toFixed2 ((likes + likes * (15/100) + likes * (5/100)) / (followers : ℚ) * 100)
    influenceScore := toFixed3 (d (k + 7) * (1/2) + 3/10)
    segment := ""
    segmentColor := ""
    segmentId := none }

/-- The synthetic branch of generateUserData (lines 43-81).  The Kaggle
branch (lines 38-41) is dead in the application: `loadKaggleData` is never
invoked, so `kaggleData` stays null.  `r i` is user `i`'s draw stream. -/
def generateUserData (numUsers : ℕ) (r : ℕ → ℕ → ℚ) : List User :=
  (List.range numUsers).map (fun i => generateUser (r i) i)

/-- JS truthiness of a string field: non-empty. -/
def isTruthyStr (s : String) : Bool := s != ""

/-- The threshold test of the clustering loop (lines 96-97):
`user.followers >= segments[i].minFollowers && parseFloat(user.engagementRate)
>= segments[i].minEngagement`. -/
def meetsThresholds (u : User) (s : Segment) : Bool :=
  decide (s.minFollowers ≤ u.followers) && decide ((s.minEngagement : ℚ) ≤ u.engagementRate)

/-- A placeholder row for the impossible empty-table lookups. -/
def emptySegment : Segment := ⟨0, "", "", 0, 0⟩

/-- The default of the clustering loop (line 93):
`segments.find(s => s.name === 'Casual Users') || segments[segments.length - 1]`. -/
def defaultSegment : Segment :=
  (segments.find? (fun s => s.name == "Casual Users")).getD (segments.getLastD emptySegment)

/-- The first-match loop of performClustering (lines 93-101): indices
`0 .. segments.length - 2`, falling back to `defaultSegment`. -/
def chooseSegment (u : User) : Segment :=
  ((segments.take (segments.length - 1)).find? (meetsThresholds u)).getD defaultSegment

/-- The body of performClustering's map (lines 86-104). -/
def clusterUser (u : User) : User :=
  if isTruthyStr u.segment && isTruthyStr u.segmentColor then u
  else
    let s := chooseSegment u
    { u with segment := s.name, segmentColor := s.color, segmentId := some s.id }

/-- performClustering (lines 85-105). -/
def performClustering (users : List User) : List User := users.map clusterUser

/-- The Jaccard interest-overlap component of calculateSimilarity (lines
110-114).  JS `Set`s are modelled with `List.dedup`; only the sizes of the
intersection and union are read, and those do not depend on which duplicate
occurrence a dedup keeps. -/
def interestSimilarity (u1 u2 : User) : ℚ :=
  let i1 := u1.interests.dedup
  let i2 := u2.interests.dedup
  let inter := i1.filter (fun x => decide (x ∈ i2))
  let unionL := (i1 ++ i2).dedup
  if 0 < unionL.length then (inter.length : ℚ) / unionL.length else 0

/-- calculateSimilarity (lines 108-129). -/
def calculateSimilarity (u1 u2 : User) : ℚ :=
  let interestSim := interestSimilarity u1 u2
  let ageSim := max 0 (1 - |jsOrQ u1.age 25 - jsOrQ u2.age 25| / 50)
  let engagementSim := max 0 (1 - |jsOrQ u1.engagementRate 5 - jsOrQ u2.engagementRate 5| / 20)
  let cityBonus : ℚ := if u1.city = u2.city then 1/10 else 0
  min 1 (45/100 * interestSim + 25/100 * ageSim + 20/100 * engagementSim + cityBonus)

/-- generateReason (lines 132-148). -/
def generateReason (u1 u2 : User) : String :=
  let shared := u1.interests.filter (fun i => decide (i ∈ u2.interests))
  if 3 ≤ shared.length then
    "Shares " ++ toString shared.length ++ " interests: " ++ String.intercalate ", " (shared.take 3)
  else if u1.city = u2.city then "Also in " ++ u2.city
  else if u1.segment = u2.segment then "Similar profile (" ++ u1.segment ++ ")"
  else if |jsOrQ u1.age 25 - jsOrQ u2.age 25| ≤ 5 then
    "Similar age group (" ++ toString u2.age ++ " years old)"
  else if 0 < shared.length then "Shares interest: " ++ shared.headD ""
  else "Similar engagement patterns"

/-- The recommendation record: the spread of the candidate user plus the
computed fields (lines 154-159). -/
structure RecEntry where
  user : User
  similarity : ℚ
  sharedInterests : List String
  reason : String
deriving DecidableEq

/-- The map step of getRecommendations for one candidate. -/
def buildRec (target u : User) : RecEntry :=
  { user := u
    similarity := calculateSimilarity target u
    sharedInterests := target.interests.filter (fun i => decide (i ∈ u.interests))
    reason := generateReason target u }

/-- The filtered, mapped candidate list of getRecommendations (lines 152-159),
in input order. -/
def recCandidates (target : User) (allUsers : List User) : List RecEntry :=
  (allUsers.filter (fun u => u.userId != target.userId)).map (buildRec target)

/-- The comparator `(a, b) => b.similarity - a.similarity` of line 160 as the
"should come no later" relation of a stable sort. -/
def recLE (a b : RecEntry) : Bool := decide (b.similarity ≤ a.similarity)

/-- getRecommendations (lines 151-164): filter out the target, attach
similarity, stable-sort descending (JS `Array.prototype.sort` is stable),
take the first `n` (the JS default for `n` is 10). -/
def getRecommendations (target : User) (allUsers : List User) (n : ℕ) : List RecEntry :=
  (((recCandidates target allUsers).mergeSort recLE).take n)

/-- The Segment-Catalog colour lookup of getSegmentStats (line 176):
`segments.find(s => s.name === segName) || { color: '#6b7280' }`. -/
def segColorOf (name : String) : String :=
  ((segments.find? (fun s => s.name == name)).map (fun s => s.color)).getD "#6b7280"

/-- One per-segment aggregate row of getSegmentStats (lines 177-185). -/
structure SegStat where
  name : String
  color : String
  count : ℕ
  percentage : ℚ
  avgEngagement : ℚ
  avgFollowers : ℤ
  avgPosts : ℤ
deriving DecidableEq

/-- The row getSegmentStats builds for one segment name. -/
def segStatFor (users : List User) (segName : String) : SegStat :=
  let segUsers := users.filter (fun u => u.segment == segName)
  let count := segUsers.length
  { name := segName
    color := segColorOf segName
    count := count
    percentage := toFixed1 ((count : ℚ) / (users.length : ℚ) * 100)
    avgEngagement := toFixed2 ((segUsers.map (fun u => jsOrQ u.engagementRate 0)).sum / (count : ℚ))
    avgFollowers := round ((segUsers.map (fun u => (u.followers : ℚ))).sum / (count : ℚ))
    avgPosts := round ((segUsers.map (fun u => (u.posts : ℚ))).sum / (count : ℚ)) }

/-- getSegmentStats (lines 167-190).  The JS object keyed by segment name is
modelled as the list of rows over the distinct segment names (`new Set` of
the mapped names); a row is kept only when its count is positive, as in the
source's `if (count > 0)` guard. -/
def getSegmentStats (users : List User) : List SegStat :=
  ((users.map (fun u => u.segment)).dedup).filterMap (fun segName =>
    if 0 < (users.filter (fun u => u.segment == segName)).length then
      some (segStatFor users segName)
    else none)

/-- First-occurrence dedup, matching JS object-key insertion order. -/
def dedupKeepFirst (l : List String) : List String :=
  l.foldl (fun acc c => if c ∈ acc then acc else acc ++ [c]) []

/-- getCityDistribution (lines 193-207): count users per city (missing city
counts as "Unknown"), stable-sort descending by count, keep the top 8. -/
def getCityDistribution (users : List User) : List (String × ℕ) :=
  let cityOf := fun (u : User) => if u.city = "" then "Unknown" else u.city
  let names := dedupKeepFirst (users.map cityOf)
  let entries := names.map (fun c => (c, (users.filter (fun u => cityOf u == c)).length))
  (entries.mergeSort (fun a b => decide (b.2 ≤ a.2))).take 8

/-- One point of the hourly engagement curve. -/
structure HourPoint where
  hour : ℕ
  engagement : ℤ
deriving DecidableEq

/-- The cascaded baseline of getEngagementByHour (lines 213-217): later `if`s
overwrite earlier ones. -/
def baseEngagement (i : ℕ) : ℤ :=
  let b : ℤ := 100
  let b := if 9 ≤ i ∧ i ≤ 11 then 250 else b
  let b := if 12 ≤ i ∧ i ≤ 14 then 200 else b
  let b := if 18 ≤ i ∧ i ≤ 22 then 350 else b
  if i ≤ 6 then 50 else b

/-- getEngagementByHour (lines 210-225); `r i` is hour `i`'s jitter draw. -/
def getEngagementByHour (r : ℕ → ℚ) : List HourPoint :=
  (List.range 24).map (fun i => ⟨i, baseEngagement i + ⌊r i * 50⌋⟩)

/-- One point of the weekly trend. -/
structure DayPoint where
  day : String
  engagement : ℤ
  followers : ℤ
deriving DecidableEq

/-- The weekday labels of getWeeklyTrend (line 229). -/
def weekDays : List String := ["Mon", "Tue", "Wed", "Thu", "Fri", "Sat", "Sun"]

/-- getWeeklyTrend (lines 228-235); `re`/`rf` are day-indexed draws. -/
def getWeeklyTrend (re rf : ℕ → ℚ) : List DayPoint :=
  (List.range 7).map (fun i => ⟨weekDays.getD i "", ⌊re i * 30⌋ + 70, ⌊rf i * 500⌋ + 100⟩)

/-- getSegmentColor of the App component (part_000 lines 425-436): the remote
adapter's segment-name → colour map, with the `#6b7280` fallback for names
outside the map (JS `colors[segmentName] || '#6b7280'`; every stored colour
is a non-empty, truthy string). -/
def getSegmentColor (segmentName : String) : String :=
  if segmentName = "Micro-Influencers" then "#f87171"
  else if segmentName = "Engaged Creators" then "#8b5cf6"
  else if segmentName = "Rising Stars" then "#06b6d4"
  else if segmentName = "Active Community" then "#10b981"
  else if segmentName = "Casual Browsers" then "#f59e0b"
  else if segmentName = "Highly Engaged" then "#3b82f6"
  else if segmentName = "Growing Accounts" then "#10b981"
  else "#6b7280"

/-- The outcomes the remote backend can deliver to one `initializeData` run
(part_000): the reachability probe's verdict (`checkAPIHealth` never throws,
lines 388-395) and, for each fetch-and-map step, either its mapped value
(`some`) or a thrown error (`none`). -/
structure RemoteEnv where
  healthy : Bool
  users : Option (List User)
  stats : Option (List SegStat)
  cities : Option (List (String × ℕ))
  hourly : Option (List HourPoint)
  weekly : Option (List DayPoint)
  recs : String → Option (List RecEntry)

/-- The random draws one `initializeData` run can consume in its local paths. -/
structure Rng where
  userDraws : ℕ → ℕ → ℚ
  hourlyDraws : ℕ → ℚ
  weeklyEngagement : ℕ → ℚ
  weeklyFollowers : ℕ → ℚ

/-- The React state `initializeData` leaves behind (part_000 lines 506-516),
with `loading = false` once the sequence has completed. -/
structure AppState where
  loading : Bool
  usingAPI : Bool
  users : List User
  selectedUser : Option User
  recommendations : List RecEntry
  segmentStats : List SegStat
  cityDistribution : List (String × ℕ)
  engagementByHour : List HourPoint
  weeklyTrend : List DayPoint

/-- The local synthesis-plus-approximation sequence shared by the non-API
branch (part_000 lines 551-568 with n = 1000, `usingAPI := false`) and the
catch handler (lines 597-615 with n = 500, `usingAPI` left at whatever value
it had when the exception was raised). -/
def localFallbackState (api : Bool) (n : ℕ) (rng : Rng) : AppState :=
  let clustered := performClustering (generateUserData n rng.userDraws)
  { loading := false
    usingAPI := api
    users := clustered
    selectedUser := clustered.head?
    recommendations :=
      match clustered.head? with
      | some u0 => getRecommendations u0 clustered 10
      | none => []
    segmentStats := getSegmentStats clustered
    cityDistribution := getCityDistribution clustered
    engagementByHour := getEngagementByHour rng.hourlyDraws
    weeklyTrend := getWeeklyTrend rng.weeklyEngagement rng.weeklyFollowers }

/-- initializeData (part_000 lines 522-616).  The probe never throws; when it
reports healthy the code first sets `usingAPI := true`, then runs the fetch
sequence users → stats → cities → hourly → weekly inside the `try`; any
`none` reaches the catch handler, which rebuilds everything locally with 500
users but does not reset `usingAPI`.  The initial-recommendations step has
its own inner try/catch (lines 580-589): its failure only recomputes the
recommendations locally.  With an empty remote user list, line 588 calls
`getLocalRecommendations(undefined, [])`, which does not throw — the filter
callback of getRecommendations is never invoked on an empty array, so
`targetUser.userId` is never read and the result is `[]` — leaving the
remote aggregates in place with no users, no selection and no
recommendations. -/
def initializeData (env : RemoteEnv) (rng : Rng) : AppState :=
  if env.healthy then
    match env.users, env.stats, env.cities, env.hourly, env.weekly with
    | some remoteUsers, some stats, some cities, some hourly, some weekly =>
      match remoteUsers.head? with
      | some u0 =>
        let recs :=
          match env.recs u0.userId with
          | some rr => rr
          | none => getRecommendations u0 remoteUsers 10
        { loading := false
          usingAPI := true
          users := remoteUsers
          selectedUser := some u0
          recommendations := recs
          segmentStats := stats
          cityDistribution := cities
          engagementByHour := hourly
          weeklyTrend := weekly }
      | none =>
        { loading := false
          usingAPI := true
          users := remoteUsers
          selectedUser := none
          recommendations := []
          segmentStats := stats
          cityDistribution := cities
          engagementByHour := hourly
          weeklyTrend := weekly }
    | _, _, _, _, _ => localFallbackState true 500 rng
  else
    localFallbackState false 1000 rng

/-- The observable "complete, locally computed dataset" of § 7 of the spec:
every exposed field of the state is the output of the local synthesizer and
approximator on `n` users, and a user is selected whenever the population is
non-empty.  Used to state claim C4. -/
def LocalDatasetComplete (st : AppState) (n : ℕ) (rng : Rng) : Prop :=
  st.loading = false ∧
  st.users = performClustering (generateUserData n rng.userDraws) ∧
  st.users.length = n ∧
  st.selectedUser = st.users.head? ∧
  (0 < n → st.selectedUser.isSome = true) ∧
  st.segmentStats = getSegmentStats st.users ∧
  st.cityDistribution = getCityDistribution st.users ∧
  st.engagementByHour = getEngagementByHour rng.hourlyDraws ∧
  st.weeklyTrend = getWeeklyTrend rng.weeklyEngagement rng.weeklyFollowers ∧
  ∀ u0, st.users.head? = some u0 → st.recommendations = getRecommendations u0 st.users 10

/-- The all-zeroes draw stream, used for concrete evaluations. -/
def zeroDraws : ℕ → ℚ := fun _ => 0

/-- The synthetic user produced from the all-zeroes draw stream. -/
def zeroUser : User := generateUser zeroDraws 0

/-- The all-zeroes random source for the orchestrator. -/
def zeroRng : Rng := ⟨fun _ _ => 0, fun _ => 0, fun _ => 0, fun _ => 0⟩

/-- A concrete environment whose probe succeeds and whose users fetch throws. -/
def envUsersFail : RemoteEnv := ⟨true, none, some [], some [], some [], some [], fun _ => some []⟩

/-- A concrete already-segmented user, for evaluating the aggregates. -/
def statUser (id seg : String) : User :=
  ⟨id, id, 30, "Male", "London", ["technology"], 100, 50, 10, 5, 1, 0, 5, 1/2, seg, "#ffffff", some 0⟩

/-- Six users in six distinct segments: each rounded percentage is 16.7. -/
def statUsers6 : List User :=
  [statUser "U1" "A", statUser "U2" "B", statUser "U3" "C",
   statUser "U4" "D", statUser "U5" "E", statUser "U6" "F"]

/-- Two users sharing one segment. -/
def statUsers2 : List User := [statUser "U1" "A", statUser "U2" "A"]

/-- A concrete user carrying no pre-existing segment. -/
def noSegUser : User :=
  ⟨"U9", "u9", 30, "Male", "London", ["art"], 20000, 10, 10, 10, 1, 0, 6, 1/2, "", "", none⟩

/-- The pre-floor `likes` value generateUser computes from draw stream `d`
(line 61 of the source), reconstructed for stating C6: the stored
engagementRate is derived from this value, not from the floored counters. -/
def rawLikes (d : ℕ → ℚ) : ℚ :=
  ((⌊d (1 + (⌊d 0 * 4⌋ + 2).toNat) * 50000⌋ + 100).toNat : ℚ)
    * (5/100 + d (1 + (⌊d 0 * 4⌋ + 2).toNat + 3) * (1/10))

/-! ### Helper lemmas -/

theorem length_dedup_filter_eq_card_inter (l1 l2 : List String) :
    ((l1.dedup).filter (fun x => decide (x ∈ l2.dedup))).length
      = (l1.dedup.toFinset ∩ l2.dedup.toFinset).card := by
  rw [← List.toFinset_card_of_nodup (l1.nodup_dedup.filter _)]
  congr 1
  ext x
  simp [List.mem_toFinset, List.mem_filter, Finset.mem_inter]

theorem length_dedup_append_eq_card_union (l1 l2 : List String) :
    (((l1.dedup) ++ (l2.dedup)).dedup).length
      = (l1.dedup.toFinset ∪ l2.dedup.toFinset).card := by
  rw [← List.card_toFinset, List.toFinset_append]

theorem interestSimilarity_comm (u1 u2 : User) :
    interestSimilarity u1 u2 = interestSimilarity u2 u1 := by
  simp only [interestSimilarity]
  simp only [length_dedup_filter_eq_card_inter, length_dedup_append_eq_card_union]
  rw [Finset.inter_comm, Finset.union_comm]

theorem interestSimilarity_nonneg (u1 u2 : User) : 0 ≤ interestSimilarity u1 u2 := by
  simp only [interestSimilarity]
  split
  · positivity
  · exact le_refl 0

theorem interestSimilarity_le_one (u1 u2 : User) : interestSimilarity u1 u2 ≤ 1 := by
  simp only [interestSimilarity]
  simp only [length_dedup_filter_eq_card_inter, length_dedup_append_eq_card_union]
  split
  · rename_i h
    rw [div_le_one (by exact_mod_cast h)]
    exact_mod_cast Finset.card_le_card
      (@Finset.inter_subset_union String _
        (u1.interests.dedup.toFinset) (u2.interests.dedup.toFinset))
  · exact zero_le_one

/-! ### C1: calculateSimilarity is symmetric and bounded in [0, 1] -/

/-- C1.  For every pair of user records, `calculateSimilarity` is symmetric
and its value lies in the closed interval [0, 1]. -/
theorem calculateSimilarity_symm_and_bounded (u1 u2 : User) :
    calculateSimilarity u1 u2 = calculateSimilarity u2 u1 ∧
    0 ≤ calculateSimilarity u1 u2 ∧ calculateSimilarity u1 u2 ≤ 1 := by
  have hbounds : ∀ v1 v2 : User,
      0 ≤ calculateSimilarity v1 v2 ∧ calculateSimilarity v1 v2 ≤ 1 := by
    intro v1 v2
    simp only [calculateSimilarity]
    constructor
    · apply le_min zero_le_one
      have h1 : 0 ≤ (45/100 : ℚ) * interestSimilarity v1 v2 :=
        mul_nonneg (by norm_num) (interestSimilarity_nonneg v1 v2)
      have h2 : 0 ≤ (25/100 : ℚ) * max 0 (1 - |jsOrQ v1.age 25 - jsOrQ v2.age 25| / 50) :=
        mul_nonneg (by norm_num) (le_max_left 0 _)
      have h3 : 0 ≤ (20/100 : ℚ) *
          max 0 (1 - |jsOrQ v1.engagementRate 5 - jsOrQ v2.engagementRate 5| / 20) :=
        mul_nonneg (by norm_num) (le_max_left 0 _)
      have h4 : 0 ≤ (if v1.city = v2.city then (1/10 : ℚ) else 0) := by positivity
      linarith
    · exact min_le_left 1 _
  refine ⟨?_, hbounds u1 u2⟩
  simp only [calculateSimilarity]
  rw [interestSimilarity_comm, abs_sub_comm (jsOrQ u1.age 25),
    abs_sub_comm (jsOrQ u1.engagementRate 5)]
  have hcity : (if u1.city = u2.city then (1/10 : ℚ) else 0)
      = (if u2.city = u1.city then (1/10 : ℚ) else 0) := by
    by_cases h : u1.city = u2.city
    · rw [if_pos h, if_pos h.symm]
    · rw [if_neg h, if_neg (fun e => h e.symm)]
  rw [hcity]

/-! ### Clustering lemmas -/

theorem defaultSegment_eq : defaultSegment = ⟨6, "Casual Users", "#6b7280", 0, 0⟩ := by decide

theorem chooseSegment_eq_find (u : User) :
    chooseSegment u
      = (segments.find? (meetsThresholds u)).getD ⟨6, "Casual Users", "#6b7280", 0, 0⟩ := by
  have hcn : meetsThresholds u ⟨7, "Newbies", "#6b7280", 0, 0⟩
      = meetsThresholds u ⟨6, "Casual Users", "#6b7280", 0, 0⟩ := rfl
  unfold chooseSegment
  rw [defaultSegment_eq]
  show ((List.take (8 - 1) segments).find? (meetsThresholds u)).getD _ = _
  cases h0 : meetsThresholds u ⟨0, "Micro-Influencers", "#8b5cf6", 10000, 5⟩ <;>
  cases h1 : meetsThresholds u ⟨1, "Highly Engaged", "#3b82f6", 5000, 4⟩ <;>
  cases h2 : meetsThresholds u ⟨2, "Engaged Creators", "#3b82f6", 5000, 4⟩ <;>
  cases h3 : meetsThresholds u ⟨3, "Growing Accounts", "#10b981", 2000, 3⟩ <;>
  cases h4 : meetsThresholds u ⟨4, "Active Community", "#f59e0b", 500, 2⟩ <;>
  cases h5 : meetsThresholds u ⟨5, "Content Creators", "#ec4899", 1000, 3⟩ <;>
  cases h6 : meetsThresholds u ⟨6, "Casual Users", "#6b7280", 0, 0⟩ <;>
    simp_all [segments, List.find?]

theorem clusterUser_segment_of_missing (u : User) (h : u.segment = "" ∨ u.segmentColor = "") :
    clusterUser u
      = { u with segment := (chooseSegment u).name,
                 segmentColor := (chooseSegment u).color,
                 segmentId := some (chooseSegment u).id } := by
  unfold clusterUser
  rcases h with h | h <;> simp [isTruthyStr, h]

theorem find?_segments_ne_engaged (u : User) (s : Segment)
    (h : segments.find? (meetsThresholds u) = some s) : s.name ≠ "Engaged Creators" := by
  intro hname
  have hs : s ∈ segments := List.mem_of_find?_eq_some h
  fin_cases hs <;> simp_all
  -- only the "Engaged Creators" row survives; refute its reachability
  have h21 : meetsThresholds u ⟨2, "Engaged Creators", "#3b82f6", 5000, 4⟩
      = meetsThresholds u ⟨1, "Highly Engaged", "#3b82f6", 5000, 4⟩ := rfl
  rw [show segments
      = ⟨0, "Micro-Influencers", "#8b5cf6", 10000, 5⟩ :: ⟨1, "Highly Engaged", "#3b82f6", 5000, 4⟩
        :: ⟨2, "Engaged Creators", "#3b82f6", 5000, 4⟩ :: ⟨3, "Growing Accounts", "#10b981", 2000, 3⟩
        :: ⟨4, "Active Community", "#f59e0b", 500, 2⟩ :: ⟨5, "Content Creators", "#ec4899", 1000, 3⟩
        :: ⟨6, "Casual Users", "#6b7280", 0, 0⟩ :: [⟨7, "Newbies", "#6b7280", 0, 0⟩] from rfl] at h
  cases h0 : meetsThresholds u ⟨0, "Micro-Influencers", "#8b5cf6", 10000, 5⟩ <;>
  cases h1 : meetsThresholds u ⟨1, "Highly Engaged", "#3b82f6", 5000, 4⟩ <;>
    simp only [List.find?_cons_of_pos, List.find?_cons_of_neg, h0, h1, h21,
      Bool.not_eq_true] at h
  · have hmem := List.mem_of_find?_eq_some h
    revert hmem
    decide
  · exact absurd h (by decide)
  · exact absurd h (by decide)
  · exact absurd h (by decide)

theorem chooseSegment_mem (u : User) : chooseSegment u ∈ segments := by
  rw [chooseSegment_eq_find]
  cases hf : segments.find? (meetsThresholds u) with
  | none => decide
  | some s => simpa using List.mem_of_find?_eq_some hf

theorem segments_truthy : ∀ s ∈ segments, s.name ≠ "" ∧ s.color ≠ "" := by decide

theorem clusterUser_idem (u : User) : clusterUser (clusterUser u) = clusterUser u := by
  by_cases h1 : u.segment = "" ∨ u.segmentColor = ""
  · rw [clusterUser_segment_of_missing u h1]
    have hmem := chooseSegment_mem u
    have := segments_truthy _ hmem
    unfold clusterUser
    simp [isTruthyStr, this.1, this.2]
  · push_neg at h1
    have : clusterUser u = u := by
      unfold clusterUser
      simp [isTruthyStr, h1.1, h1.2]
    rw [this, this]

/-! ### C2: greedy first-match segment assignment -/

/-- C2.  For a user record without a pre-existing segment, performClustering's
per-record step assigns exactly the first row of the declared segment table
whose two thresholds the record meets (with the Casual-Users row as the
default when nothing matches); when none of the six non-catch-all rows
matches, the assigned name is "Casual Users"; and a record meeting the
thresholds of rows 0 and 2 is assigned row 0, "Micro-Influencers".
performClustering applies exactly this step to every record. -/
theorem clustering_assigns_first_matching_segment (u : User) :
    (∀ us : List User, performClustering us = us.map clusterUser) ∧
    ((u.segment = "" ∨ u.segmentColor = "") →
      clusterUser u
        = { u with
            segment := ((segments.find? (meetsThresholds u)).getD
              ⟨6, "Casual Users", "#6b7280", 0, 0⟩).name,
            segmentColor := ((segments.find? (meetsThresholds u)).getD
              ⟨6, "Casual Users", "#6b7280", 0, 0⟩).color,
            segmentId := some ((segments.find? (meetsThresholds u)).getD
              ⟨6, "Casual Users", "#6b7280", 0, 0⟩).id }) ∧
    ((u.segment = "" ∨ u.segmentColor = "") →
      (segments.take 6).find? (meetsThresholds u) = none →
      (clusterUser u).segment = "Casual Users") ∧
    ((u.segment = "" ∨ u.segmentColor = "") →
      meetsThresholds u ⟨0, "Micro-Influencers", "#8b5cf6", 10000, 5⟩ = true →
      meetsThresholds u ⟨2, "Engaged Creators", "#3b82f6", 5000, 4⟩ = true →
      (clusterUser u).segment = "Micro-Influencers") := by
  refine ⟨fun _ => rfl, ?_, ?_, ?_⟩
  · intro h
    rw [clusterUser_segment_of_missing u h, chooseSegment_eq_find]
  · intro h hn
    rw [clusterUser_segment_of_missing u h]
    simp only []
    rw [chooseSegment_eq_find]
    have hcn : meetsThresholds u ⟨7, "Newbies", "#6b7280", 0, 0⟩
        = meetsThresholds u ⟨6, "Casual Users", "#6b7280", 0, 0⟩ := rfl
    cases h0 : meetsThresholds u ⟨0, "Micro-Influencers", "#8b5cf6", 10000, 5⟩ <;>
    cases h1 : meetsThresholds u ⟨1, "Highly Engaged", "#3b82f6", 5000, 4⟩ <;>
    cases h2 : meetsThresholds u ⟨2, "Engaged Creators", "#3b82f6", 5000, 4⟩ <;>
    cases h3 : meetsThresholds u ⟨3, "Growing Accounts", "#10b981", 2000, 3⟩ <;>
    cases h4 : meetsThresholds u ⟨4, "Active Community", "#f59e0b", 500, 2⟩ <;>
    cases h5 : meetsThresholds u ⟨5, "Content Creators", "#ec4899", 1000, 3⟩ <;>
    cases h6 : meetsThresholds u ⟨6, "Casual Users", "#6b7280", 0, 0⟩ <;>
      simp_all [segments, List.find?]
  · intro h h0 _
    rw [clusterUser_segment_of_missing u h]
    simp only []
    rw [chooseSegment_eq_find]
    simp [segments, List.find?, h0]

/-! ### C9: the duplicate-threshold row is unreachable -/

/-- C9.  performClustering's per-record step never assigns the segment
"Engaged Creators" to a record without a pre-existing segment: the preceding
"Highly Engaged" row has identical thresholds and always wins first-match;
performClustering applies exactly this step to every record. -/
theorem clustering_never_assigns_engaged_creators (u : User)
    (h : u.segment = "" ∨ u.segmentColor = "") :
    (∀ us : List User, performClustering us = us.map clusterUser) ∧
    (clusterUser u).segment ≠ "Engaged Creators" := by
  refine ⟨fun _ => rfl, ?_⟩
  rw [clusterUser_segment_of_missing u h]
  simp only []
  rw [chooseSegment_eq_find]
  cases hf : segments.find? (meetsThresholds u) with
  | none => simp
  | some s => simpa using find?_segments_ne_engaged u s hf

/-- Witness for C9 at a concrete unsegmented record. -/
theorem clustering_never_assigns_engaged_creators_at_noSegUser :
    (∀ us : List User, performClustering us = us.map clusterUser) ∧
    (clusterUser noSegUser).segment ≠ "Engaged Creators" :=
  clustering_never_assigns_engaged_creators noSegUser (Or.inl rfl)

/-! ### C10: pre-segmented records pass through unchanged -/

/-- C10.  A record whose `segment` and `segmentColor` are both present
(truthy) is returned by performClustering's per-record step entirely
unchanged, and performClustering is idempotent on whole collections. -/
theorem clustering_preserves_existing_segments (u : User) (us : List User) :
    (u.segment ≠ "" → u.segmentColor ≠ "" → clusterUser u = u) ∧
    performClustering (performClustering us) = performClustering us := by
  constructor
  · intro h1 h2
    unfold clusterUser
    simp [isTruthyStr, h1, h2]
  · unfold performClustering
    rw [List.map_map]
    exact List.map_congr_left (fun a _ => clusterUser_idem a)

/-! ### Recommendation-list lemmas -/

theorem recLE_trans (a b c : RecEntry) : recLE a b → recLE b c → recLE a c := by
  simp only [recLE, decide_eq_true_eq]
  exact fun h1 h2 => le_trans h2 h1

theorem recLE_total (a b : RecEntry) : recLE a b || recLE b a := by
  simp only [recLE]
  rcases le_total a.similarity b.similarity with h | h <;> simp [h]

theorem filter_mergeSort_stable (l : List RecEntry) (q : ℚ) :
    ((l.mergeSort recLE).filter (fun r => decide (r.similarity = q)))
      = l.filter (fun r => decide (r.similarity = q)) := by
  set p : RecEntry → Bool := fun r => decide (r.similarity = q) with hp
  have hall : ∀ a ∈ l.filter p, ∀ b ∈ l.filter p, recLE a b = true := by
    intro a ha b hb
    have ha' := (List.mem_filter.mp ha).2
    have hb' := (List.mem_filter.mp hb).2
    simp only [hp, decide_eq_true_eq] at ha' hb'
    simp [recLE, ha', hb']
  have hpw : (l.filter p).Pairwise (fun a b => recLE a b) :=
    List.pairwise_of_forall_mem_list hall
  have hsub : List.Sublist (l.filter p) (l.mergeSort recLE) :=
    List.sublist_mergeSort recLE_trans recLE_total hpw (List.filter_sublist l)
  have hsub2 : List.Sublist ((l.filter p).filter p) ((l.mergeSort recLE).filter p) :=
    List.Sublist.filter p hsub
  rw [List.filter_filter] at hsub2
  have hff : (l.filter (fun a => p a && p a)) = l.filter p := by
    apply List.filter_congr
    intro a _
    cases p a <;> rfl
  rw [hff] at hsub2
  have hperm : ((l.mergeSort recLE).filter p).length = (l.filter p).length :=
    ((List.mergeSort_perm l recLE).filter p).length_eq
  exact ((hsub2.eq_of_length (by rw [hperm])).symm)

/-! ### C3: recommendations exclude the target, are capped at n, sorted, stable -/

/-- C3.  getRecommendations never returns a record with the target's userId,
returns at most `n` records, returns them in weakly descending similarity
order, and is stable: for every similarity value, the records carrying it
appear as an initial run, in input order, of the candidate list's records
with that value. -/
theorem getRecommendations_excludes_target_sorted_stable
    (target : User) (allUsers : List User) (n : ℕ) :
    (∀ r ∈ getRecommendations target allUsers n, r.user.userId ≠ target.userId) ∧
    (getRecommendations target allUsers n).length ≤ n ∧
    (getRecommendations target allUsers n).Pairwise
      (fun a b => b.similarity ≤ a.similarity) ∧
    (∀ q : ℚ, ∃ rest,
      (recCandidates target allUsers).filter (fun r => decide (r.similarity = q))
        = (getRecommendations target allUsers n).filter (fun r => decide (r.similarity = q))
          ++ rest) := by
  refine ⟨?_, ?_, ?_, ?_⟩
  · intro r hr
    have hr1 : r ∈ (recCandidates target allUsers).mergeSort recLE :=
      List.mem_of_mem_take hr
    have hr2 : r ∈ recCandidates target allUsers := List.mem_mergeSort.mp hr1
    obtain ⟨u, hu, rfl⟩ := List.mem_map.mp hr2
    have := (List.mem_filter.mp hu).2
    simp only [bne_iff_ne, ne_eq] at this
    exact fun hEq => this (by simpa [buildRec] using hEq)
  · simp only [getRecommendations, List.length_take]
    exact Nat.min_le_left n _
  · have hs : ((recCandidates target allUsers).mergeSort recLE).Pairwise
        (fun a b => recLE a b) :=
      List.sorted_mergeSort recLE_trans recLE_total _
    have ht : (getRecommendations target allUsers n).Pairwise (fun a b => recLE a b) :=
      hs.sublist (List.take_sublist n _)
    exact ht.imp (fun h => by simpa [recLE] using h)
  · intro q
    refine ⟨(((recCandidates target allUsers).mergeSort recLE).drop n).filter
      (fun r => decide (r.similarity = q)), ?_⟩
    rw [← filter_mergeSort_stable (recCandidates target allUsers) q]
    rw [getRecommendations]
    rw [← List.filter_append, List.take_append_drop]

/-! ### Orchestrator lemmas -/

theorem localFallbackState_usingAPI (api : Bool) (n : ℕ) (rng : Rng) :
    (localFallbackState api n rng).usingAPI = api := rfl

theorem localFallbackState_complete (api : Bool) (n : ℕ) (rng : Rng) :
    LocalDatasetComplete (localFallbackState api n rng) n rng := by
  unfold LocalDatasetComplete localFallbackState
  refine ⟨rfl, rfl, ?_, rfl, ?_, rfl, rfl, rfl, rfl, ?_⟩
  · simp [performClustering, generateUserData]
  · intro hn
    simp only [List.head?_isSome]
    apply List.ne_nil_of_length_pos
    simpa [performClustering, generateUserData] using hn
  · intro u0 h
    simp only at h ⊢
    rw [h]

theorem initializeData_catch (eu : Option (List User)) (est : Option (List SegStat))
    (eci : Option (List (String × ℕ))) (eho : Option (List HourPoint))
    (ewe : Option (List DayPoint)) (ere : String → Option (List RecEntry)) (rng : Rng)
    (hfail : eu = none ∨ est = none ∨ eci = none ∨ eho = none ∨ ewe = none) :
    initializeData ⟨true, eu, est, eci, eho, ewe, ere⟩ rng = localFallbackState true 500 rng := by
  cases eu with
  | none => rfl
  | some us =>
    cases est with
    | none => rfl
    | some st =>
      cases eci with
      | none => rfl
      | some ci =>
        cases eho with
        | none => rfl
        | some ho =>
          cases ewe with
          | none => rfl
          | some we =>
            rcases hfail with h | h | h | h | h
            · exact absurd h (by simp)
            · exact absurd h (by simp)
            · exact absurd h (by simp)
            · exact absurd h (by simp)
            · exact absurd h (by simp)

/-! ### C4: fallback behaviour of the loading sequence -/

/-- C4 (amended).  When the reachability probe reports the backend
unavailable, initialization completes with `usingAPI = false` and a complete,
locally computed dataset of 1000 users.  When the probe succeeds but a step
of the remote fetch sequence (users, stats, cities, hourly, weekly) throws,
initialization still completes with a complete, locally computed dataset of
500 users, but `usingAPI` remains `true`.  When only the final
recommendations fetch fails, the remote dataset is kept and just the
recommendations are recomputed locally.  When every remote fetch succeeds
but the user list is empty, nothing throws (the recommendation filter never
reads its target on an empty array): the remote aggregates are kept with an
empty population, no selection, no recommendations and `usingAPI = true`. -/
theorem initializeData_fallback_behaviour (env : RemoteEnv) (rng : Rng) :
    (env.healthy = false →
      (initializeData env rng).usingAPI = false ∧
      LocalDatasetComplete (initializeData env rng) 1000 rng) ∧
    (env.healthy = true →
      (env.users = none ∨ env.stats = none ∨ env.cities = none ∨
        env.hourly = none ∨ env.weekly = none) →
      (initializeData env rng).usingAPI = true ∧
      LocalDatasetComplete (initializeData env rng) 500 rng) ∧
    (∀ us u0 st ci ho we, env.healthy = true →
      env.users = some us → us.head? = some u0 →
      env.stats = some st → env.cities = some ci →
      env.hourly = some ho → env.weekly = some we →
      env.recs u0.userId = none →
      (initializeData env rng).usingAPI = true ∧
      (initializeData env rng).users = us ∧
      (initializeData env rng).recommendations = getRecommendations u0 us 10) ∧
    (∀ st ci ho we, env.healthy = true →
      env.users = some [] →
      env.stats = some st → env.cities = some ci →
      env.hourly = some ho → env.weekly = some we →
      (initializeData env rng).usingAPI = true ∧
      (initializeData env rng).users = [] ∧
      (initializeData env rng).selectedUser = none ∧
      (initializeData env rng).recommendations = [] ∧
      (initializeData env rng).segmentStats = st ∧
      (initializeData env rng).cityDistribution = ci ∧
      (initializeData env rng).engagementByHour = ho ∧
      (initializeData env rng).weeklyTrend = we ∧
      (initializeData env rng).loading = false) := by
  obtain ⟨eh, eu, est, eci, eho, ewe, ere⟩ := env
  refine ⟨?_, ?_, ?_, ?_⟩
  · intro h
    subst h
    exact ⟨rfl, localFallbackState_complete false 1000 rng⟩
  · intro h hfail
    subst h
    rw [initializeData_catch eu est eci eho ewe ere rng hfail]
    exact ⟨rfl, localFallbackState_complete true 500 rng⟩
  · intro us u0 st ci ho we hh hus hu0 hst hci hho hwe hrec
    subst hh hus hst hci hho hwe
    simp only [initializeData, hu0]
    refine ⟨rfl, rfl, ?_⟩
    rw [show ere u0.userId = none from hrec]
    rfl
  · intro st ci ho we hh hus hst hci hho hwe
    subst hh hus hst hci hho hwe
    exact ⟨rfl, rfl, rfl, rfl, rfl, rfl, rfl, rfl, rfl⟩

/-- C4 counterexample.  With the probe healthy and the users fetch throwing,
the final state's `usingAPI` flag is not false: the session does not end in
the LOCAL state, although its whole dataset was rebuilt locally. -/
theorem initializeData_not_local_after_fetch_failure :
    ¬ ((initializeData envUsersFail zeroRng).usingAPI = false) := by decide

/-! ### C5: segment colours across the two data paths -/

/-- C5 counterexample.  For the segment name "Micro-Influencers" the local
catalog colour (`#8b5cf6`) differs from the remote adapter's colour
(`#f87171`): the two paths are not observably equivalent on colours. -/
theorem segment_color_paths_disagree :
    ¬ (segColorOf "Micro-Influencers" = getSegmentColor "Micro-Influencers") := by decide

/-- C5 (amended).  The local Segment-Catalog colour and the remote adapter's
getSegmentColor agree on a segment name exactly when the name is outside the
six names on which the two tables conflict ("Micro-Influencers",
"Engaged Creators", "Active Community", "Content Creators", "Rising Stars",
"Casual Browsers"); in particular they agree on "Highly Engaged",
"Growing Accounts", "Casual Users", "Newbies" and on every name unknown to
both tables (both give the neutral gray `#6b7280`). -/
theorem segment_color_agreement_iff (name : String) :
    segColorOf name = getSegmentColor name ↔
      name ∉ (["Micro-Influencers", "Engaged Creators", "Active Community",
               "Content Creators", "Rising Stars", "Casual Browsers"] : List String) := by
  by_cases h1 : name = "Micro-Influencers"
  · subst h1; decide
  by_cases h2 : name = "Highly Engaged"
  · subst h2; decide
  by_cases h3 : name = "Engaged Creators"
  · subst h3; decide
  by_cases h4 : name = "Growing Accounts"
  · subst h4; decide
  by_cases h5 : name = "Active Community"
  · subst h5; decide
  by_cases h6 : name = "Content Creators"
  · subst h6; decide
  by_cases h7 : name = "Casual Users"
  · subst h7; decide
  by_cases h8 : name = "Newbies"
  · subst h8; decide
  by_cases h9 : name = "Rising Stars"
  · subst h9; decide
  by_cases h10 : name = "Casual Browsers"
  · subst h10; decide
  have e1 : ("Micro-Influencers" == name) = false := beq_eq_false_iff_ne.mpr (Ne.symm h1)
  have e2 : ("Highly Engaged" == name) = false := beq_eq_false_iff_ne.mpr (Ne.symm h2)
  have e3 : ("Engaged Creators" == name) = false := beq_eq_false_iff_ne.mpr (Ne.symm h3)
  have e4 : ("Growing Accounts" == name) = false := beq_eq_false_iff_ne.mpr (Ne.symm h4)
  have e5 : ("Active Community" == name) = false := beq_eq_false_iff_ne.mpr (Ne.symm h5)
  have e6 : ("Content Creators" == name) = false := beq_eq_false_iff_ne.mpr (Ne.symm h6)
  have e7 : ("Casual Users" == name) = false := beq_eq_false_iff_ne.mpr (Ne.symm h7)
  have e8 : ("Newbies" == name) = false := beq_eq_false_iff_ne.mpr (Ne.symm h8)
  have hL : segColorOf name = "#6b7280" := by
    unfold segColorOf segments
    simp [List.find?, e1, e2, e3, e4, e5, e6, e7, e8]
  have hR : getSegmentColor name = "#6b7280" := by
    unfold getSegmentColor
    simp [h1, h3, h5, h9, h10, h2, h4]
  rw [hL, hR]
  simp [h1, h3, h5, h6, h9, h10]

/-! ### C6: engagementRate derivation -/

/-- C6 (amended).  A synthesizer record's stored engagementRate is derived
from the pre-floor likes value `rawLikes d` — that value plus its 15 % and
5 % shares, over followers, times 100, to 2 decimals — while the stored
`likes`/`comments`/`shares` counters are the floored values; and followers
is at least 100, so the derivation never divides by zero. -/
theorem engagementRate_from_prefloor_likes (d : ℕ → ℚ) (i : ℕ) (h : ∀ j, 0 ≤ d j) :
    100 ≤ (generateUser d i).followers ∧
    (generateUser d i).engagementRate
      = toFixed2 ((rawLikes d + rawLikes d * (15/100) + rawLikes d * (5/100))
          / ((generateUser d i).followers : ℚ) * 100) ∧
    (generateUser d i).likes = (⌊rawLikes d⌋).toNat ∧
    (generateUser d i).comments = (⌊rawLikes d * (15/100)⌋).toNat ∧
    (generateUser d i).shares = (⌊rawLikes d * (5/100)⌋).toNat := by
  refine ⟨?_, rfl, rfl, rfl, rfl⟩
  show 100 ≤ ((⌊d (1 + (⌊d 0 * 4⌋ + 2).toNat) * 50000⌋ + 100).toNat)
  have h0 : (0:ℤ) ≤ ⌊d (1 + (⌊d 0 * 4⌋ + 2).toNat) * 50000⌋ :=
    Int.floor_nonneg.mpr (mul_nonneg (h _) (by norm_num))
  omega

/-- C6 witness, at the all-zeroes draw stream. -/
theorem engagementRate_from_prefloor_likes_at_zero :
    100 ≤ (generateUser zeroDraws 0).followers ∧
    (generateUser zeroDraws 0).engagementRate
      = toFixed2 ((rawLikes zeroDraws + rawLikes zeroDraws * (15/100)
            + rawLikes zeroDraws * (5/100))
          / ((generateUser zeroDraws 0).followers : ℚ) * 100) ∧
    (generateUser zeroDraws 0).likes = (⌊rawLikes zeroDraws⌋).toNat ∧
    (generateUser zeroDraws 0).comments = (⌊rawLikes zeroDraws * (15/100)⌋).toNat ∧
    (generateUser zeroDraws 0).shares = (⌊rawLikes zeroDraws * (5/100)⌋).toNat :=
  engagementRate_from_prefloor_likes zeroDraws 0 (fun _ => le_refl 0)

/-- C6 counterexample.  For the all-zeroes draw stream the stored
engagementRate is 6.00 while the formula computed from the record's own
stored (floored) likes, comments and shares fields gives 5.00: the claimed
derivation from the stored fields does not hold. -/
theorem engagementRate_not_from_stored_fields :
    ¬ (zeroUser.engagementRate
        = toFixed2 (((zeroUser.likes : ℚ) + (zeroUser.comments : ℚ) + (zeroUser.shares : ℚ))
            / ((zeroUser.followers : ℚ)) * 100)) := by decide

/-! ### C7: field ranges of synthesized users -/

theorem foldl_pick_nodup (f : ℕ → String) :
    ∀ (js : List ℕ) (acc : List String), acc.Nodup →
      (js.foldl (fun acc j => if f j ∈ acc then acc else acc ++ [f j]) acc).Nodup := by
  intro js
  induction js with
  | nil => intro acc h; exact h
  | cons j js ih =>
    intro acc h
    simp only [List.foldl_cons]
    apply ih
    by_cases hm : f j ∈ acc
    · simpa [hm] using h
    · rw [if_neg hm]
      simp [List.nodup_append, h, hm]

theorem foldl_pick_length (f : ℕ → String) :
    ∀ (js : List ℕ) (acc : List String),
      (js.foldl (fun acc j => if f j ∈ acc then acc else acc ++ [f j]) acc).length
        ≤ acc.length + js.length := by
  intro js
  induction js with
  | nil => intro acc; simp
  | cons j js ih =>
    intro acc
    simp only [List.foldl_cons, List.length_cons]
    refine le_trans (ih _) ?_
    by_cases hm : f j ∈ acc
    · rw [if_pos hm]
      omega
    · rw [if_neg hm]
      simp only [List.length_append, List.length_cons, List.length_nil]
      omega

theorem foldl_pick_eq_nil (f : ℕ → String) :
    ∀ (js : List ℕ) (acc : List String),
      js.foldl (fun acc j => if f j ∈ acc then acc else acc ++ [f j]) acc = [] →
      acc = [] ∧ js = [] := by
  intro js
  induction js with
  | nil => intro acc h; exact ⟨h, rfl⟩
  | cons j js ih =>
    intro acc h
    simp only [List.foldl_cons] at h
    have h2 := ih _ h
    by_cases hm : f j ∈ acc
    · rw [if_pos hm] at h2
      rcases h2 with ⟨rfl, rfl⟩
      exact absurd hm (by simp)
    · rw [if_neg hm] at h2
      exact absurd h2.1 (by simp)

theorem pickInterests_facts (d : ℕ → ℚ) (m : ℕ) :
    (pickInterests d m).Nodup ∧ (pickInterests d m).length ≤ m ∧
    (0 < m → 0 < (pickInterests d m).length) := by
  refine ⟨?_, ?_, ?_⟩
  · exact foldl_pick_nodup
      (fun j => interestsCatalog.getD (⌊d (1 + j) * 12⌋).toNat "") (List.range m) []
      List.nodup_nil
  · have := foldl_pick_length
      (fun j => interestsCatalog.getD (⌊d (1 + j) * 12⌋).toNat "") (List.range m) []
    simp only [List.length_nil, List.length_range, Nat.zero_add] at this
    exact this
  · intro hm
    apply List.length_pos_of_ne_nil
    intro hnil
    have h2 := foldl_pick_eq_nil
      (fun j => interestsCatalog.getD (⌊d (1 + j) * 12⌋).toNat "") (List.range m) [] hnil
    rw [List.range_eq_nil] at h2
    omega

theorem floor_mul_range (x : ℚ) (C : ℕ) (h0 : 0 ≤ x) (h1 : x < 1) (hC : 0 < C) :
    0 ≤ ⌊x * C⌋ ∧ ⌊x * C⌋ < C := by
  constructor
  · exact Int.floor_nonneg.mpr (mul_nonneg h0 (by positivity))
  · apply Int.floor_lt.mpr
    calc x * C < 1 * C := by
          apply mul_lt_mul_of_pos_right h1
          exact_mod_cast hC
    _ = C := one_mul _

/-- C7 (amended).  Every record of the synthetic branch has between 1 and 5
interests (duplicate draws are skipped without redrawing, so the count can
fall below the claimed 2) with no duplicate tags; followers in [100, 50100);
following in [50, 2050); posts in [10, 510); age in [18, 58); and
influenceScore in the closed interval [0.3, 0.8] (3-decimal rounding can
reach exactly 0.800, so the claimed half-open [0.3, 0.8) fails at the top). -/
theorem synthesized_user_field_ranges (n : ℕ) (r : ℕ → ℕ → ℚ) (u : User)
    (hr : ∀ i j, 0 ≤ r i j ∧ r i j < 1) (hu : u ∈ generateUserData n r) :
    1 ≤ u.interests.length ∧ u.interests.length ≤ 5 ∧ u.interests.Nodup ∧
    100 ≤ u.followers ∧ u.followers < 50100 ∧
    50 ≤ u.following ∧ u.following < 2050 ∧
    10 ≤ u.posts ∧ u.posts < 510 ∧
    (18:ℚ) ≤ u.age ∧ u.age < 58 ∧
    (3/10 : ℚ) ≤ u.influenceScore ∧ u.influenceScore ≤ 4/5 := by
  simp only [generateUserData, List.mem_map] at hu
  obtain ⟨i, _, rfl⟩ := hu
  have hd : ∀ j, 0 ≤ r i j ∧ r i j < 1 := hr i
  have hm0 := floor_mul_range (r i 0) 4 (hd 0).1 (hd 0).2 (by norm_num)
  push_cast at hm0
  have hmlo : 2 ≤ (⌊r i 0 * 4⌋ + 2).toNat := by omega
  have hmhi : (⌊r i 0 * 4⌋ + 2).toNat ≤ 5 := by omega
  have hpick := pickInterests_facts (r i) ((⌊r i 0 * 4⌋ + 2).toNat)
  have hfo := floor_mul_range (r i (1 + (⌊r i 0 * 4⌋ + 2).toNat)) 50000
    (hd _).1 (hd _).2 (by norm_num)
  have hfg := floor_mul_range (r i (1 + (⌊r i 0 * 4⌋ + 2).toNat + 1)) 2000
    (hd _).1 (hd _).2 (by norm_num)
  have hps := floor_mul_range (r i (1 + (⌊r i 0 * 4⌋ + 2).toNat + 2)) 500
    (hd _).1 (hd _).2 (by norm_num)
  have hag := floor_mul_range (r i (1 + (⌊r i 0 * 4⌋ + 2).toNat + 4)) 40
    (hd _).1 (hd _).2 (by norm_num)
  push_cast at hm0 hfo hfg hps hag
  refine ⟨?_, ?_, ?_, ?_, ?_, ?_, ?_, ?_, ?_, ?_, ?_, ?_, ?_⟩
  · exact hpick.2.2 (by omega)
  · exact le_trans hpick.2.1 hmhi
  · exact hpick.1
  · show 100 ≤ (⌊r i (1 + (⌊r i 0 * 4⌋ + 2).toNat) * 50000⌋ + 100).toNat
    omega
  · show (⌊r i (1 + (⌊r i 0 * 4⌋ + 2).toNat) * 50000⌋ + 100).toNat < 50100
    omega
  · show 50 ≤ (⌊r i (1 + (⌊r i 0 * 4⌋ + 2).toNat + 1) * 2000⌋ + 50).toNat
    omega
  · show (⌊r i (1 + (⌊r i 0 * 4⌋ + 2).toNat + 1) * 2000⌋ + 50).toNat < 2050
    omega
  · show 10 ≤ (⌊r i (1 + (⌊r i 0 * 4⌋ + 2).toNat + 2) * 500⌋ + 10).toNat
    omega
  · show (⌊r i (1 + (⌊r i 0 * 4⌋ + 2).toNat + 2) * 500⌋ + 10).toNat < 510
    omega
  · show (18:ℚ) ≤ ((⌊r i (1 + (⌊r i 0 * 4⌋ + 2).toNat + 4) * 40⌋ + 18 : ℤ) : ℚ)
    exact_mod_cast (by omega : (18:ℤ) ≤ ⌊r i (1 + (⌊r i 0 * 4⌋ + 2).toNat + 4) * 40⌋ + 18)
  · show ((⌊r i (1 + (⌊r i 0 * 4⌋ + 2).toNat + 4) * 40⌋ + 18 : ℤ) : ℚ) < 58
    exact_mod_cast (by omega : ⌊r i (1 + (⌊r i 0 * 4⌋ + 2).toNat + 4) * 40⌋ + 18 < (58:ℤ))
  · show (3/10 : ℚ) ≤ toFixed3 (r i (1 + (⌊r i 0 * 4⌋ + 2).toNat + 7) * (1/2) + 3/10)
    have hx := hd (1 + (⌊r i 0 * 4⌋ + 2).toNat + 7)
    set x := r i (1 + (⌊r i 0 * 4⌋ + 2).toNat + 7)
    have h300 : (300:ℤ) ≤ round ((x * (1/2) + 3/10) * 1000) := by
      rw [round_eq]
      apply Int.le_floor.mpr
      push_cast
      nlinarith [hx.1, hx.2]
    unfold toFixed3
    rw [le_div_iff₀ (by norm_num)]
    calc (3:ℚ)/10 * 1000 = ((300:ℤ):ℚ) := by norm_num
    _ ≤ _ := by exact_mod_cast h300
  · show toFixed3 (r i (1 + (⌊r i 0 * 4⌋ + 2).toNat + 7) * (1/2) + 3/10) ≤ 4/5
    have hx := hd (1 + (⌊r i 0 * 4⌋ + 2).toNat + 7)
    set x := r i (1 + (⌊r i 0 * 4⌋ + 2).toNat + 7)
    have h800 : round ((x * (1/2) + 3/10) * 1000) ≤ (800:ℤ) := by
      rw [round_eq]
      have : ⌊(x * (1/2) + 3/10) * 1000 + 1/2⌋ < (801:ℤ) := by
        apply Int.floor_lt.mpr
        push_cast
        nlinarith [hx.1, hx.2]
      omega
    unfold toFixed3
    rw [div_le_iff₀ (by norm_num)]
    calc ((round ((x * (1/2) + 3/10) * 1000) : ℤ) : ℚ) ≤ ((800:ℤ):ℚ) := by exact_mod_cast h800
    _ = 4/5 * 1000 := by norm_num

/-- C7 witness, at the all-zeroes draw stream. -/
theorem synthesized_user_field_ranges_at_zero :
    1 ≤ (generateUser zeroDraws 0).interests.length ∧
    (generateUser zeroDraws 0).interests.length ≤ 5 ∧
    (generateUser zeroDraws 0).interests.Nodup ∧
    100 ≤ (generateUser zeroDraws 0).followers ∧ (generateUser zeroDraws 0).followers < 50100 ∧
    50 ≤ (generateUser zeroDraws 0).following ∧ (generateUser zeroDraws 0).following < 2050 ∧
    10 ≤ (generateUser zeroDraws 0).posts ∧ (generateUser zeroDraws 0).posts < 510 ∧
    (18:ℚ) ≤ (generateUser zeroDraws 0).age ∧ (generateUser zeroDraws 0).age < 58 ∧
    (3/10 : ℚ) ≤ (generateUser zeroDraws 0).influenceScore ∧
    (generateUser zeroDraws 0).influenceScore ≤ 4/5 :=
  synthesized_user_field_ranges 1 (fun _ _ => 0) (generateUser zeroDraws 0)
    (fun _ _ => ⟨le_refl 0, by norm_num⟩)
    (List.mem_singleton.mpr rfl)

/-- C7 counterexample.  With the all-zeroes draw stream both interest draws
pick the same tag, which is skipped without redrawing: the record has a
single interest, below the claimed minimum of 2. -/
theorem synthesized_user_too_few_interests :
    ¬ (2 ≤ (generateUser zeroDraws 0).interests.length) := by decide

/-! ### C8: segment statistics sums -/

theorem filterMap_guard_eq_map {α β : Type} (f : α → β) (P : α → Prop) [DecidablePred P]
    (l : List α) (h : ∀ a ∈ l, P a) :
    (l.filterMap (fun a => if P a then some (f a) else none)) = l.map f := by
  induction l with
  | nil => rfl
  | cons a t ih =>
    rw [List.filterMap_cons, List.map_cons]
    rw [if_pos (h a (List.mem_cons_self a t))]
    rw [ih (fun b hb => h b (List.mem_cons_of_mem a hb))]

theorem getSegmentStats_eq (users : List User) :
    getSegmentStats users
      = ((users.map (fun u => u.segment)).dedup).map (segStatFor users) := by
  unfold getSegmentStats
  apply filterMap_guard_eq_map
  intro segName hmem
  rw [List.mem_dedup, List.mem_map] at hmem
  obtain ⟨u, hu, rfl⟩ := hmem
  apply List.length_pos_of_mem
  rw [List.mem_filter]
  exact ⟨hu, by simp⟩

theorem segment_counts_sum (users : List User) :
    (((users.map (fun u => u.segment)).dedup).map
      (fun segName => (users.filter (fun u => u.segment == segName)).length)).sum
      = users.length := by
  have hpt : ∀ segName, (users.filter (fun u => u.segment == segName)).length
      = (users.map (fun u => u.segment)).count segName := by
    intro segName
    rw [List.count, List.countP_map, List.countP_eq_length_filter]
    rfl
  rw [List.map_congr_left (fun a _ => hpt a)]
  rw [List.sum_map_count_dedup_eq_length]
  exact List.length_map users _

theorem abs_toFixed1_sub (y : ℚ) : |toFixed1 y - y| ≤ 1/20 := by
  unfold toFixed1
  have h := abs_sub_round (y * 10)
  rw [abs_sub_comm] at h
  have heq : ((round (y * 10) : ℤ) : ℚ) / 10 - y = ((round (y * 10) : ℤ) - y * 10) / 10 := by
    ring
  rw [heq, abs_div]
  rw [abs_of_pos (by norm_num : (0:ℚ) < 10)]
  linarith

theorem abs_list_sum_sub_le {α : Type} (f g : α → ℚ) (b : ℚ) :
    ∀ l : List α, (∀ a ∈ l, |f a - g a| ≤ b) →
      |(l.map f).sum - (l.map g).sum| ≤ l.length * b := by
  intro l
  induction l with
  | nil => intro _; simp
  | cons a t ih =>
    intro h
    simp only [List.map_cons, List.sum_cons, List.length_cons]
    have h1 : |f a - g a| ≤ b := h a (List.mem_cons_self a t)
    have h2 := ih (fun x hx => h x (List.mem_cons_of_mem a hx))
    calc |f a + (t.map f).sum - (g a + (t.map g).sum)|
        = |(f a - g a) + ((t.map f).sum - (t.map g).sum)| := by ring_nf
      _ ≤ |f a - g a| + |(t.map f).sum - (t.map g).sum| := abs_add _ _
      _ ≤ b + t.length * b := add_le_add h1 h2
      _ = ((t.length + 1 : ℕ) : ℚ) * b := by push_cast; ring

/-- C8 (amended).  For a non-empty collection, the per-segment counts sum
exactly to the collection size, and the rounded per-segment percentages sum
to 100 within 0.05 times the number of distinct segments (each 1-decimal
rounding contributes up to 0.05, so the claimed fixed tolerance of 0.1 holds
only for at most two distinct segments). -/
theorem segmentStats_counts_exact_percentages_bounded (users : List User) (h : users ≠ []) :
    ((getSegmentStats users).map (fun s => s.count)).sum = users.length ∧
    |((getSegmentStats users).map (fun s => s.percentage)).sum - 100|
      ≤ ((getSegmentStats users).length : ℚ) * (1/20) := by
  have hL : (users.length : ℚ) ≠ 0 := by
    rw [Nat.cast_ne_zero]
    intro h0
    exact h (List.length_eq_zero.mp h0)
  constructor
  · rw [getSegmentStats_eq, List.map_map]
    have hfun : ((fun s => SegStat.count s) ∘ segStatFor users)
        = fun segName => (users.filter (fun u => u.segment == segName)).length := rfl
    rw [hfun]
    exact segment_counts_sum users
  · rw [getSegmentStats_eq, List.map_map, List.length_map]
    have hfun : ((fun s => SegStat.percentage s) ∘ segStatFor users)
        = fun segName => toFixed1
            (((users.filter (fun u => u.segment == segName)).length : ℚ)
              / (users.length : ℚ) * 100) := rfl
    rw [hfun]
    set names := (users.map (fun u => u.segment)).dedup with hnames
    set g : String → ℚ := fun segName =>
      ((users.filter (fun u => u.segment == segName)).length : ℚ)
        / (users.length : ℚ) * 100 with hg
    have hsum : (names.map g).sum = 100 := by
      have hstep : ∀ nm, g nm
          = ((users.filter (fun u => u.segment == nm)).length : ℚ)
            * (100 / (users.length : ℚ)) := by
        intro nm
        rw [hg]
        ring
      rw [List.map_congr_left (fun a _ => hstep a)]
      rw [List.sum_map_mul_right]
      have hcast : (names.map (fun nm =>
          ((users.filter (fun u => u.segment == nm)).length : ℚ))).sum
          = (((names.map (fun nm =>
              (users.filter (fun u => u.segment == nm)).length)).sum : ℕ) : ℚ) := by
        rw [Nat.cast_list_sum, List.map_map]
        rfl
      rw [hcast, segment_counts_sum users]
      field_simp
    calc |(names.map (fun nm => toFixed1 (g nm))).sum - 100|
        = |(names.map (fun nm => toFixed1 (g nm))).sum - (names.map g).sum| := by rw [hsum]
      _ ≤ names.length * (1/20) :=
          abs_list_sum_sub_le (fun nm => toFixed1 (g nm)) g (1/20) names
            (fun a _ => abs_toFixed1_sub (g a))

/-- C8 witness, on a concrete two-user, one-segment collection. -/
theorem segmentStats_sums_at_two_users :
    ((getSegmentStats statUsers2).map (fun s => s.count)).sum = statUsers2.length ∧
    |((getSegmentStats statUsers2).map (fun s => s.percentage)).sum - 100|
      ≤ ((getSegmentStats statUsers2).length : ℚ) * (1/20) :=
  segmentStats_counts_exact_percentages_bounded statUsers2 (by decide)

/-- C8 counterexample.  Six users in six distinct segments each round to
16.7 %, so the percentages sum to 100.2: off by 0.2, beyond the claimed 0.1
tolerance. -/
theorem segmentStats_percentages_beyond_tolerance :
    ¬ (((getSegmentStats statUsers6).map (fun s => s.count)).sum = statUsers6.length ∧
       |((getSegmentStats statUsers6).map (fun s => s.percentage)).sum - 100| ≤ 1/10) := by
  decide

end SocialRec

